import Mathlib

/-!
Verification development for the bugzot backend's authentication core
(`src/backend/app`): token issuance/decoding (`app/core/security.py`),
the auth routes (`app/api/v1/routes/auth.py`), the auth service layer
(`app/services/auth_service.py`), user CRUD (`app/crud/user.py`), the
rate limiter (`app/core/rate_limiter.py`) and the validation helpers
(`app/core/validation.py`).

The embedding is shallow: the ephemeral key-value store (Redis) is a list
of keyed entries with absolute expiry times, the user table is a list of
records, JWTs are an inductive of signed-payload versus malformed strings,
and every Python function of interest becomes an executable Lean function
over these states.  Exceptions are modelled with `Except` over an error
type distinguishing `HTTPException`s (status, detail) from plain Python
errors (`TypeError`, `ValueError`, `AttributeError`, connection errors),
since FastAPI maps the former to their status and the latter to 500.

External effects with no bearing on control flow are abstracted into
function parameters: bcrypt hashing/verification (`hash_password`,
`verify_password`), the DNS MX lookup (`validate_email_mx`) and the
regex text sanitizer (`sanitize_text`).  No claim below depends on the
internals of any of these.
-/

/-- ASCII lowercasing of one character, as `str.lower` acts on the
ASCII range (the characters appearing in this development). -/
def pyCharLower (c : Char) : Char :=
  if 'A' ≤ c ∧ c ≤ 'Z' then Char.ofNat (c.toNat + 32) else c

/-- Model of Python `str.lower()`. -/
def pyLower (s : String) : String := ⟨s.data.map pyCharLower⟩

/-- Whitespace for `str.strip()`. -/
def isPySpace (c : Char) : Bool := c = ' ' ∨ c = '\t' ∨ c = '\n' ∨ c = '\r'

/-- Model of Python `str.strip()`: drop leading and trailing whitespace. -/
def pyStrip (s : String) : String :=
  ⟨((s.data.dropWhile isPySpace).reverse.dropWhile isPySpace).reverse⟩

/-- Decimal digit accumulator for `pyInt`. -/
def digitsValAux : List Char → Nat → Option Nat
  | [], acc => some acc
  | c :: cs, acc =>
    if '0' ≤ c ∧ c ≤ '9' then digitsValAux cs (acc * 10 + (c.toNat - 48)) else none

/-- Model of Python `int(s)` on the strings this service produces:
optional surrounding whitespace, optional sign, then decimal digits;
anything else raises `ValueError` (returned as `none`). -/
def pyInt (s : String) : Option Int :=
  match (pyStrip s).data with
  | [] => none
  | '-' :: rest =>
    if rest = [] then none
    else (digitsValAux rest 0).map fun n => -(n : Int)
  | '+' :: rest =>
    if rest = [] then none
    else (digitsValAux rest 0).map fun n => (n : Int)
  | cs => (digitsValAux cs 0).map fun n => (n : Int)

/-- Digit expansion for `pyStr`, with fuel for structural recursion. -/
def natDigitsAux : Nat → Nat → List Char
  | 0, _ => []
  | fuel + 1, n =>
    if n = 0 then [] else natDigitsAux fuel (n / 10) ++ [Char.ofNat (48 + n % 10)]

/-- Model of Python `str(n)` for a non-negative integer. -/
def pyStr (n : Nat) : String :=
  if n = 0 then "0" else ⟨natDigitsAux (n + 1) n⟩

/-- Decoded JWT claim set, mirroring the dict produced by `jwt.decode`
in `app/core/security.py`: `sub` (stringified user id), `exp`
(POSIX-seconds expiry) and `jti` (unique token id).  Absent claims are
`none`. -/
structure Payload where
  sub : Option String
  exp : Option Nat
  jti : Option String
deriving DecidableEq, Repr

/-- A token string presented by a client.  `signed p key` stands for the
string `jwt.encode(p, key, algorithm)`; `malformed s` stands for any
string that is not a well-formed JWT.  The raw string of a signed token
(three dot-separated base64 segments) is never equal to a bare `jti`
(a UUID), which is why the two blacklist key constructors below are
distinct. -/
inductive TokenStr where
  | signed (payload : Payload) (key : String)
  | malformed (raw : String)
deriving DecidableEq, Repr

/-- Keys of the ephemeral key-value store, one constructor per key shape
the source builds:
`rl ip` is `f"rl:{ip}"` (rate_limiter.py),
`actionRate a ip` is `f"{a}:{ip}"` for `a` one of the rate-limit
prefixes (`"login:rate"` / `"register:rate"`, constants.py),
`blacklistTok t` is `"blacklist:" + token` for the raw token string
(the read in `decode_access_token`), and
`blacklistJti j` is `"blacklist:" + jti` (the write in `logout_user`
and the read in `get_current_user`). -/
inductive RKey where
  | rl (ip : String)
  | actionRate (action : String) (ip : String)
  | blacklistTok (t : TokenStr)
  | blacklistJti (jti : String)
deriving DecidableEq, Repr

/-- One entry of the ephemeral store: key, absolute expiry time
(`none` = no expiry, as after a bare `INCR`), and string value. -/
structure REntry where
  key : RKey
  expAt : Option Nat
  val : String
deriving DecidableEq, Repr

/-- The ephemeral key-value store. -/
abbrev Redis := List REntry

/-- Whether an entry is still live at time `now`. -/
def REntry.live (e : REntry) (now : Nat) : Bool :=
  match e.expAt with
  | none => true
  | some t => now < t

/-- First entry with the given key, live or not. -/
def rlookup : Redis → RKey → Option REntry
  | [], _ => none
  | e :: rest, k => if e.key = k then some e else rlookup rest k

/-- Model of `redis_client.get`: the value of the key if it exists and
has not expired. -/
def rget (r : Redis) (now : Nat) (k : RKey) : Option String :=
  match rlookup r k with
  | some e => if e.live now then some e.val else none
  | none => none

/-- Drop every entry with the given key. -/
def rremove : Redis → RKey → Redis
  | [], _ => []
  | e :: rest, k => if e.key = k then rremove rest k else e :: rremove rest k

/-- Model of `redis_client.setex`: store the value under the key with a
time-to-live of `ttl` seconds from `now`. -/
def rsetex (r : Redis) (now : Nat) (k : RKey) (ttl : Nat) (v : String) : Redis :=
  ⟨k, some (now + ttl), v⟩ :: rremove r k

/-- Model of `redis_client.incr`: increment the integer value of a live
key keeping its expiry; a missing or expired key restarts at 1 with no
expiry (Redis persists keys created by INCR). -/
def rincr (r : Redis) (now : Nat) (k : RKey) : Redis :=
  match rlookup r k with
  | some e =>
    if e.live now then
      ⟨k, e.expAt, pyStr (((pyInt e.val).getD 0).toNat + 1)⟩ :: rremove r k
    else
      ⟨k, none, "1"⟩ :: rremove r k
  | none => ⟨k, none, "1"⟩ :: rremove r k

/-- Model of `redis_client.expire`: set the expiry of a live key to
`seconds` from `now`; no effect on a missing or expired key. -/
def rexpire (r : Redis) (now : Nat) (k : RKey) (seconds : Nat) : Redis :=
  match rlookup r k with
  | some e =>
    if e.live now then ⟨k, some (now + seconds), e.val⟩ :: rremove r k else r
  | none => r

deriving instance DecidableEq for Except

/-- Python-level error outcomes.  FastAPI returns the status of an
`HTTPException` and turns every other uncaught exception into a 500. -/
inductive PyErr where
  | http (statusCode : Nat) (detail : String)
  | typeErr (msg : String)
  | valueErr (msg : String)
  | attrErr (msg : String)
  | connErr (msg : String)
deriving DecidableEq, Repr

/-- HTTP status of a handler outcome: `okCode` on success, the carried
status for an `HTTPException`, 500 for any other uncaught exception. -/
def respStatus (okCode : Nat) : Except PyErr α → Nat
  | .ok _ => okCode
  | .error (.http s _) => s
  | .error _ => 500

/-- Model of `jwt.decode(token, secret, algorithms)` from python-jose:
succeeds iff the token is well signed with the server secret and, when
an `exp` claim is present, that expiry has not passed (a token without
`exp` passes, as python-jose only checks `exp` when present). -/
def jwt_decode (t : TokenStr) (secret : String) (now : Nat) : Option Payload :=
  match t with
  | .signed p key =>
    if key = secret then
      match p.exp with
      | some e => if now < e then some p else none
      | none => some p
    else none
  | .malformed _ => none

/-- Model of `security.decode_access_token`: first consults the blacklist keyed
by the RAW TOKEN STRING (`f"blacklist:{token}"`), raising 401
"Token has been revoked." on a hit, then verifies signature and expiry,
mapping any `JWTError` to 401 "Invalid authentication credentials.".
The `HTTPException` raised inside the `try` is not a `JWTError`, so it
propagates unchanged. -/
def decode_access_token (r : Redis) (now : Nat) (secret : String)
    (token : TokenStr) : Except PyErr Payload :=
  if (rget r now (.blacklistTok token)).isSome then
    .error (.http 401 "Token has been revoked.")
  else
    match jwt_decode token secret now with
    | some payload => .ok payload
    | none => .error (.http 401 "Invalid authentication credentials.")

/-- Model of `security.get_token_jti`: decode, then return the `jti` claim,
raising `ValueError` when it is absent or falsy (the `except JWTError`
clause in the source is dead code, since `decode_access_token` never
raises `JWTError`). -/
def get_token_jti (r : Redis) (now : Nat) (secret : String)
    (token : TokenStr) : Except PyErr String :=
  match decode_access_token r now secret token with
  | .error e => .error e
  | .ok payload =>
    match payload.jti with
    | some j =>
      if j = "" then .error (.valueErr "Token missing jti claim.") else .ok j
    | none => .error (.valueErr "Token missing jti claim.")

/-- A row of the `users` table (`app/models/users/user.py`).  The table
carries a partial unique index `uq_users_email_active` on `email`
restricted to rows with `is_deleted = false`. -/
structure UserRec where
  id : Nat
  email : String
  hashed_password : String
  full_name : Option String
  role_id : Nat
  is_active : Bool
  is_verified : Bool
  is_deleted : Bool
  login_attempts : Nat
  last_login : Option Nat
deriving DecidableEq, Repr

/-- The user table. -/
abbrev DB := List UserRec

/-- Model of `crud.user.get_user_by_id`: first row matching the id that is also
active and not deleted — the activity and deletion filters are part of
the query itself. -/
def get_user_by_id : DB → Int → Option UserRec
  | [], _ => none
  | u :: rest, uid =>
    if (u.id : Int) = uid ∧ u.is_active = true ∧ u.is_deleted = false then
      some u
    else get_user_by_id rest uid

/-- Model of `crud.user.get_user_by_email`: case-insensitive match on the email
(`ilike`), with NO filter on `is_deleted` or `is_active` — deleted rows
are returned too. -/
def get_user_by_email : DB → String → Option UserRec
  | [], _ => none
  | u :: rest, email =>
    if pyLower u.email = pyLower email then some u
    else get_user_by_email rest email

/-- Model of `crud.user.increment_login_attempts`: add one to the row's failed
login counter and commit. -/
def increment_login_attempts (db : DB) (uid : Nat) : DB :=
  db.map fun u =>
    if u.id = uid then { u with login_attempts := u.login_attempts + 1 } else u

/-- Model of `crud.user.reset_login_attempts`: zero the counter and stamp
`last_login` with the current time, in the same commit. -/
def reset_login_attempts (db : DB) (uid : Nat) (now : Nat) : DB :=
  db.map fun u =>
    if u.id = uid then { u with login_attempts := 0, last_login := some now }
    else u

/-- Model of `security.get_current_user`, the dependency guarding every
authenticated endpoint: extract the `jti` (which itself decodes the
token), reject 401 when the JTI-KEYED blacklist entry is live, decode
again, parse `sub` as an integer (both `TypeError` for a missing claim
and `ValueError` for a non-numeric one collapse to 401), and look the
user up through the active-and-not-deleted filtered query. -/
def get_current_user (db : DB) (r : Redis) (now : Nat) (secret : String)
    (token : TokenStr) : Except PyErr UserRec :=
  match get_token_jti r now secret token with
  | .error e => .error e
  | .ok jti =>
    if (rget r now (.blacklistJti jti)).isSome then
      .error (.http 401 "Token has been revoked.")
    else
      match decode_access_token r now secret token with
      | .error e => .error e
      | .ok payload =>
        match payload.sub with
        | none => .error (.http 401 "Invalid token payload.")
        | some s =>
          match pyInt s with
          | none => .error (.http 401 "Invalid token payload.")
          | some uid =>
            match get_user_by_id db uid with
            | none => .error (.http 401 "Inactive or missing user.")
            | some user => .ok user

/-- Model of `security.create_access_token` for the payload `{"sub": str(user.id)}`
built by login: expiry `now` plus the configured minutes, a fresh
uuid4 `jti` (passed in, since it is random), signed with the server
secret. -/
def create_access_token (sub : String) (now : Nat) (expireMinutes : Nat)
    (jti : String) (secret : String) : TokenStr :=
  .signed ⟨some sub, some (now + 60 * expireMinutes), some jti⟩ secret

/-- Constant `LOGIN_RATE_LIMIT_PREFIX` from `app/core/constants.py`
(named `..._ACTION` here). -/
def LOGIN_RATE_LIMIT_ACTION : String := "login:rate"

/-- Constant `REGISTER_RATE_LIMIT_PREFIX` from `app/core/constants.py`
(named `..._ACTION` here). -/
def REGISTER_RATE_LIMIT_ACTION : String := "register:rate"

/-- Constant from `app/core/rate_limiter.py`. -/
def MAX_REQUESTS : Nat := 5

/-- Constant from `app/core/rate_limiter.py`. -/
def WINDOW_SECONDS : Nat := 60

/-- Blocked throwaway-email providers (`DISPOSABLE_DOMAINS` in
`app/api/v1/routes/auth.py`). -/
def DISPOSABLE_DOMAINS : List String :=
  ["tempmail.com", "10minutemail.com", "mailinator.com"]

/-- The part of an email after its last `@`, i.e. `email.split("@")[-1]`
(`split` on a string without the separator yields the whole string). -/
def emailDomain (email : String) : String :=
  ⟨(email.data.reverse.takeWhile (fun c => ¬ c = '@')).reverse⟩

/-- Model of `validation.is_disposable_email`: domain membership in the
blocklist, case-insensitively. -/
def is_disposable_email (email : String) (blocklist : List String) : Bool :=
  blocklist.contains (pyLower (emailDomain email))

/-- Model of `validation.check_honeypot_field`: the hidden field must be absent,
empty, or a single space (`value in ("", None, " ")`). -/
def check_honeypot_field : Option String → Bool
  | none => true
  | some s => s = "" ∨ s = " "

/-- Character class of the regex `[a-z]`. -/
def isLowerAZ (c : Char) : Bool := 'a' ≤ c ∧ c ≤ 'z'

/-- Character class of the regex `[A-Z]`. -/
def isUpperAZ (c : Char) : Bool := 'A' ≤ c ∧ c ≤ 'Z'

/-- Character class of the regex `[\d]`, restricted to the ASCII digits
that ever occur in this development. -/
def isDigit09 (c : Char) : Bool := '0' ≤ c ∧ c ≤ '9'

/-- The special-character set of `validate_password_strength`'s last
regex, spelled in the source as the class containing
`! @ # $ % ^ & * ( ) , . ? " : span-braces | < >` (codes 34, 60, 62,
94, 123 and 125 written numerically here). -/
def SPECIAL_CHARS : List Char :=
  ['!', '@', '#', '$', '%', Char.ofNat 94, '&', '*', '(', ')', ',', '.',
    '?', Char.ofNat 34, ':', Char.ofNat 123, Char.ofNat 125, '|',
    Char.ofNat 60, Char.ofNat 62]

/-- Model of `security.validate_password_strength`: the if-chain from the source,
rejecting when the length is under 8 or any of the four character
classes is missing. -/
def validate_password_strength (password : String) : Bool :=
  if password.length < 8 then false
  else if ¬ password.data.any isLowerAZ then false
  else if ¬ password.data.any isUpperAZ then false
  else if ¬ password.data.any isDigit09 then false
  else if ¬ password.data.any (fun c => SPECIAL_CHARS.contains c) then false
  else true

/-- The password-strength rule as the specification words it: length at
least 8 and at least one lowercase letter, one uppercase letter, one
digit and one symbol of the special-character set. -/
def spec_password_strong (password : String) : Bool :=
  decide (8 ≤ password.length) && password.data.any isLowerAZ
    && password.data.any isUpperAZ && password.data.any isDigit09
    && password.data.any (fun c => SPECIAL_CHARS.contains c)

/-- Model of `rate_limiter.check_rate_limit` as DEFINED (one parameter `ip`):
skip in test/development environments, read the counter at `f"rl:{ip}"`,
reject when it is at least `MAX_REQUESTS`, otherwise increment it and
refresh its window.  Counter values are written by `INCR` and hence
always numeric, so `int(current)` is modelled as a defaulting parse. -/
def check_rate_limit (env : String) (r : Redis) (now : Nat) (ip : String) :
    Bool × Redis :=
  if env = "test" ∨ env = "development" then (true, r)
  else
    let key := RKey.rl ip
    let current := rget r now key
    let overLimit : Bool :=
      match current with
      | some v => decide (¬ v = "" ∧ MAX_REQUESTS ≤ ((pyInt v).getD 0).toNat)
      | none => false
    if overLimit then
      (false, r)
    else
      let r1 := rincr r now key
      (true, rexpire r1 now key WINDOW_SECONDS)

/-- A call to `check_rate_limit` with an explicit positional argument
list, as Python binds it: the function takes exactly one positional
argument, so the two-argument calls in `routes/auth.py`
(`check_rate_limit(PREFIX, ip)`) raise `TypeError`. -/
def call_check_rate_limit (env : String) (r : Redis) (now : Nat)
    (args : List String) : Except PyErr (Bool × Redis) :=
  match args with
  | [ip] => .ok (check_rate_limit env r now ip)
  | _ =>
    .error (.typeErr "check_rate_limit() takes 1 positional argument but 2 were given")

/-- Body of `routes/auth.py::login_user` after the rate-limit guard
(lines 154-188): credential lookup (not-found and soft-deleted collapse
to 401 and bump the IP counter at `f"login:rate:{ip}"`), inactive check
(403), password verify (mismatch increments the user's persisted
counter and the IP counter), and on success a counter reset,
`last_login` stamp and token issue.  The bcrypt comparison is the
`verify` parameter, the fresh uuid4 is `newJti`.  The user table and
ephemeral store are threaded through explicitly so that error outcomes
keep their side effects. -/
def login_checked (verify : String → String → Bool) (db : DB) (r : Redis)
    (now : Nat) (ip : String) (email password : String) (newJti : String)
    (secret : String) (expireMinutes : Nat) :
    Except PyErr TokenStr × DB × Redis :=
  let rateKey := RKey.actionRate LOGIN_RATE_LIMIT_ACTION ip
  let bump := fun (r0 : Redis) => rexpire (rincr r0 now rateKey) now rateKey 60
  match get_user_by_email db email with
  | none => (.error (.http 401 "Invalid credentials."), db, bump r)
  | some user =>
    if user.is_deleted then
      (.error (.http 401 "Invalid credentials."), db, bump r)
    else if ¬ user.is_active then
      (.error (.http 403 "Account is inactive or unverified."), db, r)
    else if ¬ verify password user.hashed_password then
      (.error (.http 401 "Invalid credentials."),
        increment_login_attempts db user.id, bump r)
    else
      (.ok (create_access_token (pyStr user.id) now expireMinutes newJti secret),
        reset_login_attempts db user.id now, r)

/-- Model of `routes/auth.py::login_user` in full: normalize the email, call
`check_rate_limit(LOGIN_RATE_LIMIT_ACTION, ip)` — with both positional
arguments, exactly as the source does — then run the credential flow.
An uncaught `TypeError` from the call surfaces as a 500. -/
def login_user (env : String) (verify : String → String → Bool) (db : DB)
    (r : Redis) (now : Nat) (ip : String) (payloadEmail payloadPassword : String)
    (newJti : String) (secret : String) (expireMinutes : Nat) :
    Except PyErr TokenStr × DB × Redis :=
  let email := pyLower (pyStrip payloadEmail)
  match call_check_rate_limit env r now [LOGIN_RATE_LIMIT_ACTION, ip] with
  | .error e => (.error e, db, r)
  | .ok (allowed, r1) =>
    if ¬ allowed then
      (.error (.http 429 "Too many login attempts. Try again later."), db, r1)
    else
      login_checked verify db r1 now ip email payloadPassword newJti secret
        expireMinutes

/-- Body of `routes/auth.py::logout_user`'s `try` block: decode,
extract the jti, reject 400 on a missing (or zero, which is falsy)
`exp` claim, treat a non-positive remaining TTL as an already-logged-out
no-op, and otherwise record `f"blacklist:{jti}"` with TTL
`exp - now`.  `clientPresent` models the truthiness test
`if redis_client:` (the guard that raises 503 when the client object is
absent) and `storeUp` models reachability of the store itself: when it
is down, `setex` raises a connection error. -/
def logout_try_block (clientPresent storeUp : Bool) (r : Redis) (now : Nat)
    (secret : String) (token : TokenStr) : Except PyErr Redis :=
  match decode_access_token r now secret token with
  | .error err => .error err
  | .ok payload =>
    match get_token_jti r now secret token with
    | .error err => .error err
    | .ok jti =>
      match payload.exp with
      | none => .error (.http 400 "Token missing expiration")
      | some expTs =>
        if expTs = 0 then .error (.http 400 "Token missing expiration")
        else
          let ttl : Int := (expTs : Int) - (now : Int)
          if ttl ≤ 0 then .ok r
          else
            if clientPresent then
              if storeUp then
                .ok (rsetex r now (.blacklistJti jti) ttl.toNat "true")
              else .error (.connErr "Error connecting to Redis")
            else .error (.http 503 "Logout temporarily unavailable")

/-- Model of `routes/auth.py::logout_user`: the whole `try` block is wrapped in
`except Exception`, which catches every failure raised inside —
including the deliberately raised 503 and 400 `HTTPException`s and any
store connection error — and re-raises 401 "Invalid token". -/
def logout_user (clientPresent storeUp : Bool) (r : Redis) (now : Nat)
    (secret : String) (token : TokenStr) : Except PyErr Redis :=
  match logout_try_block clientPresent storeUp r now secret token with
  | .ok r2 => .ok r2
  | .error _ => .error (.http 401 "Invalid token")

/-- Model of `services/auth_service.py::handle_logout`: the same steps as the
route's `try` block but with NO catch-all, so the 503 raised when the
client is absent propagates to the caller (and a connection error from
`setex` would surface as a 500).  Unlike the route, this function has
no zero-`exp` quirk: `if not exp_timestamp` behaves identically, so the
body is shared. -/
def handle_logout (clientPresent storeUp : Bool) (r : Redis) (now : Nat)
    (secret : String) (token : TokenStr) : Except PyErr Redis :=
  logout_try_block clientPresent storeUp r now secret token

/-- The `POST /auth/logout` endpoint: FastAPI first resolves the
`get_current_user` dependency (rejecting the request before the handler
when it fails) and then runs the handler. -/
def logout_endpoint (clientPresent storeUp : Bool) (db : DB) (r : Redis)
    (now : Nat) (secret : String) (token : TokenStr) : Except PyErr Redis :=
  match get_current_user db r now secret token with
  | .error e => .error e
  | .ok _ => logout_user clientPresent storeUp r now secret token

/-- The `GET /auth/me` endpoint: resolve the current user through the
dependency and echo it. -/
def get_me (db : DB) (r : Redis) (now : Nat) (secret : String)
    (token : TokenStr) : Except PyErr UserRec :=
  get_current_user db r now secret token

/-- HTTP status observed on `GET /auth/me` after a successful
`POST /auth/logout` run at `now₀` over the same token: the sentinel 599
marks the unreachable case where that logout did not succeed. -/
def me_after_logout_status (db : DB) (r : Redis) (now₀ now₁ : Nat)
    (secret : String) (token : TokenStr) : Nat :=
  match logout_endpoint true true db r now₀ secret token with
  | .ok r2 => respStatus 200 (get_me db r2 now₁ secret token)
  | .error _ => 599

/-- HTTP status observed on a second `POST /auth/logout` with the same
token after a first successful one at `now₀`; 599 marks the unreachable
case where the first logout did not succeed. -/
def second_logout_status (db : DB) (r : Redis) (now₀ now₁ : Nat)
    (secret : String) (token : TokenStr) : Nat :=
  match logout_endpoint true true db r now₀ secret token with
  | .ok r2 => respStatus 204 (logout_endpoint true true db r2 now₁ secret token)
  | .error _ => 599

/-- Model of `schemas/auth.py::UserRegisterRequest`: the registration body has
exactly these fields — in particular NO `role_id` and NO `active`
field. -/
structure UserRegisterRequest where
  email : String
  password : String
  full_name : Option String
deriving DecidableEq, Repr

/-- Pydantic attribute access `payload.role_id` on
`UserRegisterRequest`: the model declares no such field, so the access
raises `AttributeError`. -/
def payloadRoleId (_ : UserRegisterRequest) : Except PyErr Nat :=
  .error (.attrErr "UserRegisterRequest object has no attribute role_id")

/-- Pydantic attribute access `payload.active` on
`UserRegisterRequest`: the model declares no such field, so the access
raises `AttributeError`. -/
def payloadActive (_ : UserRegisterRequest) : Except PyErr Bool :=
  .error (.attrErr "UserRegisterRequest object has no attribute active")

/-- Next autoincrement id of the user table. -/
def nextId (db : DB) : Nat := (db.foldl (fun m u => max m u.id) 0) + 1

/-- Store-level insert with the table's constraints: the `role_id`
foreign key must exist and the partial unique index
`uq_users_email_active` forbids two non-deleted rows with the same
email.  A violation raises `IntegrityError`, reported here as
`Except.error ()`. -/
def db_insert (roles : List Nat) (db : DB) (u : UserRec) : Except Unit DB :=
  if ¬ roles.contains u.role_id then .error ()
  else if u.is_deleted = false
      ∧ db.any (fun v => v.is_deleted = false ∧ v.email = u.email) then
    .error ()
  else .ok (db ++ [u])

/-- The row `crud.user.create_user` would build, given the role id and
active flag it tries to read off the payload. -/
def newUserRec (db : DB) (payload : UserRegisterRequest) (hashed_pw : String)
    (full_name : Option String) (role_id : Nat) (active : Bool) : UserRec :=
  { id := nextId db, email := pyLower payload.email,
    hashed_password := hashed_pw, full_name := full_name, role_id := role_id,
    is_active := active, is_verified := false, is_deleted := false,
    login_attempts := 0, last_login := none }

/-- Model of `crud.user.create_user`: build the row (the accesses
`payload.role_id` and `payload.active` raise `AttributeError`, since
`UserRegisterRequest` has no such fields), insert it, and translate an
`IntegrityError` into HTTP 400 "Invalid role_id or data constraint
violation." — not 409. -/
def create_user (roles : List Nat) (db : DB) (payload : UserRegisterRequest)
    (hashed_pw : String) (full_name : Option String) :
    Except PyErr (UserRec × DB) := do
  let role_id ← payloadRoleId payload
  let active ← payloadActive payload
  let u := newUserRec db payload hashed_pw full_name role_id active
  match db_insert roles db u with
  | .ok db2 => .ok (u, db2)
  | .error _ =>
    .error (.http 400 "Invalid role_id or data constraint violation.")

/-- The insert-and-translate tail of `crud.user.create_user`
(lines 45-55) in isolation, parameterized by the role id and active
flag the code fails to obtain from the payload: this is the handler the
concurrency claim is about, and it maps `IntegrityError` to 400. -/
def create_user_insert (roles : List Nat) (db : DB)
    (payload : UserRegisterRequest) (hashed_pw : String)
    (full_name : Option String) (role_id : Nat) (active : Bool) :
    Except PyErr (UserRec × DB) :=
  let u := newUserRec db payload hashed_pw full_name role_id active
  match db_insert roles db u with
  | .ok db2 => .ok (u, db2)
  | .error _ =>
    .error (.http 400 "Invalid role_id or data constraint violation.")

/-- Body of `routes/auth.py::register_user` after the rate-limit guard
(lines 92-127): disposable-domain check, MX check (the DNS resolver is
the `mxOk` parameter), uniqueness pre-check via the UNFILTERED
`get_user_by_email`, password strength, then `create_user` (activation
token and email dispatch after a successful insert have no effect on
the outcomes studied here and are omitted). -/
def register_checked (mxOk : String → Bool) (hashF : String → String)
    (roles : List Nat) (db : DB) (email : String) (full_name : Option String)
    (payload : UserRegisterRequest) : Except PyErr (UserRec × DB) :=
  if is_disposable_email email DISPOSABLE_DOMAINS then
    .error (.http 400 "Disposable email addresses are not allowed.")
  else if ¬ mxOk email then
    .error (.http 400 "Invalid email domain (MX check failed).")
  else if (get_user_by_email db email).isSome then
    .error (.http 409 "Email already registered.")
  else if ¬ validate_password_strength payload.password then
    .error (.http 422 "Password is too weak.")
  else create_user roles db payload (hashF payload.password) full_name

/-- Model of `routes/auth.py::register_user` in full: normalize the email,
sanitize the display name (the regex sanitizer is the `sanitize`
parameter), honeypot check, then the two-positional-argument call
`check_rate_limit(REGISTER_RATE_LIMIT_ACTION, ip)` exactly as the
source makes it, then the rest of the pipeline. -/
def register_user (env : String) (mxOk : String → Bool)
    (hashF sanitize : String → String) (roles : List Nat) (db : DB) (r : Redis)
    (now : Nat) (ip : String) (payload : UserRegisterRequest)
    (honeypot : Option String) : Except PyErr (UserRec × DB) :=
  let email := pyLower (pyStrip payload.email)
  let full_name := payload.full_name.bind fun s =>
    if s = "" then none else some (sanitize s)
  if ¬ check_honeypot_field honeypot then
    .error (.http 400 "Bot activity detected.")
  else
    match call_check_rate_limit env r now [REGISTER_RATE_LIMIT_ACTION, ip] with
    | .error e => .error e
    | .ok (allowed, _) =>
      if ¬ allowed then
        .error (.http 429 "Too many requests from this IP.")
      else register_checked mxOk hashF roles db email full_name payload

/-- Bcrypt oracle for concrete scenarios: a password matches a hash iff
the hash is `"H:"` followed by the password. -/
def verifyW : String → String → Bool := fun p h => h = "H:" ++ p

/-- A registered, active, verified user for concrete scenarios. -/
def userW : UserRec :=
  { id := 1, email := "a@b.com", hashed_password := "H:Secret1!",
    full_name := none, role_id := 1, is_active := true, is_verified := true,
    is_deleted := false, login_attempts := 0, last_login := none }

/-- A one-user table for concrete scenarios. -/
def dbW : DB := [userW]

/-- The token the service issues for `userW` at time 0 with the default
30-minute TTL and fresh jti `"j1"`, under server secret `"s"`. -/
def tW : TokenStr := create_access_token "1" 0 30 "j1" "s"

/-- The claim set carried by `tW`. -/
def pW : Payload := ⟨some "1", some 1800, some "j1"⟩

/-- C8: `validate_password_strength` accepts exactly the passwords of
length at least 8 containing a lowercase letter, an uppercase letter, a
digit and a symbol of the special-character set; on the boundary,
"Aa1!aaaa" is accepted while "alllower1!" is rejected and the
registration pipeline turns that rejection into HTTP 422. -/
theorem c8_password_strength_iff :
    (∀ p : String, validate_password_strength p = spec_password_strong p) ∧
    validate_password_strength "Aa1!aaaa" = true ∧
    validate_password_strength "alllower1!" = false ∧
    respStatus 201 (register_checked (fun _ => true) (fun s => s) [1] []
      "x@y.com" none ⟨"x@y.com", "alllower1!", none⟩) = 422 := by
  refine ⟨?_, by decide, by decide, by decide⟩
  intro p
  simp only [validate_password_strength, spec_password_strong]
  split_ifs with h1 h2 h3 h4 h5 <;>
    simp_all [Nat.not_lt, Nat.lt_iff_add_one_le]

/-- C2 (counterexample): with exactly the blacklist entry logout writes
for `tW`'s jti present and live, `decode_access_token` still returns
the decoded claim set instead of failing with the revoked-token error:
the decode path never queries the blacklist by jti. -/
theorem c2_decode_ignores_jti_blacklist :
    rget [⟨.blacklistJti "j1", some 1800, "true"⟩] 0 (.blacklistJti "j1")
      = some "true" ∧
    decode_access_token [⟨.blacklistJti "j1", some 1800, "true"⟩] 0 "s" tW
      = .ok pW := by decide

/-- C2 (amended): `decode_access_token` checks the blacklist keyed by
the RAW TOKEN STRING before any signature verification (`t2` below is
rejected as revoked whether or not it even parses), and never the
jti-keyed blacklist, so a token whose jti was blacklisted by logout
still decodes; the jti-keyed check that rejects revoked-but-unexpired
tokens on every subsequent authenticated request lives in
`get_current_user` instead. -/
theorem c2_blacklist_check_placement (r : Redis) (db : DB) (now : Nat)
    (secret : String) (p : Payload) (j : String) (t t2 : TokenStr)
    (hjti : p.jti = some j) (hj : ¬ j = "")
    (htok : rget r now (.blacklistTok t) = none)
    (hdec : jwt_decode t secret now = some p)
    (hbl : (rget r now (.blacklistJti j)).isSome = true)
    (h2 : (rget r now (.blacklistTok t2)).isSome = true) :
    decode_access_token r now secret t = .ok p ∧
    get_current_user db r now secret t
      = .error (.http 401 "Token has been revoked.") ∧
    decode_access_token r now secret t2
      = .error (.http 401 "Token has been revoked.") := by
  have hdecode : decode_access_token r now secret t = .ok p := by
    simp only [decode_access_token, htok, Option.isSome_none,
      Bool.false_eq_true, if_false, hdec]
  refine ⟨hdecode, ?_, ?_⟩
  · simp only [get_current_user, get_token_jti, hdecode, hjti, hj, if_false,
      hbl, if_true]
  · simp only [decode_access_token, h2, if_true]

/-- C2 (witness for the amended theorem): the concrete revoked state
after logging out `tW`, together with a malformed-but-blacklisted raw
string. -/
theorem c2_blacklist_check_placement_witness :
    decode_access_token
        [⟨.blacklistJti "j1", some 1800, "true"⟩,
          ⟨.blacklistTok (.malformed "x"), some 1800, "true"⟩] 0 "s" tW
      = .ok pW ∧
    get_current_user dbW
        [⟨.blacklistJti "j1", some 1800, "true"⟩,
          ⟨.blacklistTok (.malformed "x"), some 1800, "true"⟩] 0 "s" tW
      = .error (.http 401 "Token has been revoked.") ∧
    decode_access_token
        [⟨.blacklistJti "j1", some 1800, "true"⟩,
          ⟨.blacklistTok (.malformed "x"), some 1800, "true"⟩] 0 "s"
        (.malformed "x")
      = .error (.http 401 "Token has been revoked.") :=
  c2_blacklist_check_placement _ dbW 0 "s" pW "j1" tW (.malformed "x")
    (by decide) (by decide) (by decide) (by decide) (by decide) (by decide)

/-- C5: the registration uniqueness pre-check uses the unfiltered
`get_user_by_email`, so a soft-deleted row still blocks re-registration
of its email: the pipeline answers 409 instead of letting the
registration proceed. -/
theorem c5_deleted_email_blocks_registration :
    (get_user_by_email [{ userW with is_deleted := true, is_active := false }]
        "a@b.com").map UserRec.is_deleted = some true ∧
    respStatus 201 (register_checked (fun _ => true) (fun s => s) [1]
        [{ userW with is_deleted := true, is_active := false }]
        "a@b.com" none ⟨"a@b.com", "Aa1!aaaa", none⟩) = 409 := by decide

/-- C6: when the ephemeral store is unavailable at blacklist-write time,
the `POST /auth/logout` route answers 401 "Invalid token" — its
catch-all `except Exception` swallows both the deliberately raised 503
(client object absent) and the connection error from `setex` (store
down) — while the unused service-layer `handle_logout` would surface
the 503. -/
theorem c6_logout_unavailable_store_is_401 :
    respStatus 204 (logout_endpoint false true dbW [] 0 "s" tW) = 401 ∧
    respStatus 204 (logout_endpoint true false dbW [] 0 "s" tW) = 401 ∧
    respStatus 204 ((get_current_user dbW [] 0 "s" tW).bind
      fun _ => handle_logout false true [] 0 "s" tW) = 503 := by decide

/-- C7: on the duplicate-insert race the data-access layer does not
produce 409: `create_user` as written dies with `AttributeError`
(`UserRegisterRequest` has no `role_id`/`active` fields), which FastAPI
reports as 500, and even its `IntegrityError` handler in isolation
(`create_user_insert`) translates the constraint violation to 400
"Invalid role_id or data constraint violation.", not to the pre-check's
409. -/
theorem c7_race_not_translated_to_409 :
    respStatus 201 (create_user [1] dbW ⟨"a@b.com", "Aa1!aaaa", none⟩
      "H:Aa1!aaaa" none) = 500 ∧
    create_user_insert [1] dbW ⟨"a@b.com", "Aa1!aaaa", none⟩
        "H:Aa1!aaaa" none 1 true
      = .error (.http 400 "Invalid role_id or data constraint violation.") ∧
    respStatus 201 (create_user_insert [1] dbW ⟨"a@b.com", "Aa1!aaaa", none⟩
      "H:Aa1!aaaa" none 1 true) = 400 := by decide

/-- C4: both auth routes call `check_rate_limit(PREFIX, ip)` with two
positional arguments while the function takes one, so every login and
registration attempt dies with `TypeError` (HTTP 500) before any
rate-limit logic runs — no attempt ever yields 429 or succeeds.  The
rate limiter itself, called as defined, would reject at the threshold
and admit below it, but over the key `f"rl:{ip}"`, which the
failed-login increments on `f"login:rate:{ip}"` never touch. -/
theorem c4_rate_limit_call_arity_bug :
    (login_user "production" verifyW dbW [] 0 "9.9.9.9" "a@b.com" "Secret1!"
        "j2" "s" 30).1
      = .error (.typeErr
          "check_rate_limit() takes 1 positional argument but 2 were given") ∧
    respStatus 200 (login_user "production" verifyW dbW [] 0 "9.9.9.9"
      "a@b.com" "Secret1!" "j2" "s" 30).1 = 500 ∧
    respStatus 201 (register_user "production" (fun _ => true) (fun s => s)
      (fun s => s) [1] [] [] 0 "9.9.9.9" ⟨"new@b.com", "Aa1!aaaa", none⟩
      none) = 500 ∧
    (check_rate_limit "production" [⟨.rl "9.9.9.9", some 60, "5"⟩] 0
      "9.9.9.9").1 = false ∧
    (check_rate_limit "production" [⟨.rl "9.9.9.9", some 60, "4"⟩] 0
      "9.9.9.9").1 = true := by decide

/-- C9: a wrong-password login attempt on the program as it stands does
NOT increment the persisted failed-login counter — the request dies
with `TypeError` (500) at the rate-limit call before password
verification — while the credential-flow code the claim cites
(`login_checked`, lines 154-188 of the route, with the CRUD helpers)
does behave exactly as described: mismatch adds one, success resets to
zero and stamps `last_login`, and not-found, soft-deleted and inactive
outcomes leave the counter untouched. -/
theorem c9_login_attempts_counter :
    (login_user "test" verifyW dbW [] 0 "9.9.9.9" "a@b.com" "Wrong1!"
      "j2" "s" 30).2.1 = dbW ∧
    respStatus 200 (login_user "test" verifyW dbW [] 0 "9.9.9.9" "a@b.com"
      "Wrong1!" "j2" "s" 30).1 = 500 ∧
    (login_checked verifyW dbW [] 0 "9.9.9.9" "a@b.com" "Wrong1!"
      "j2" "s" 30).2.1 = [{ userW with login_attempts := 1 }] ∧
    respStatus 200 (login_checked verifyW dbW [] 0 "9.9.9.9" "a@b.com"
      "Wrong1!" "j2" "s" 30).1 = 401 ∧
    (login_checked verifyW [{ userW with login_attempts := 3 }] [] 7
      "9.9.9.9" "a@b.com" "Secret1!" "j2" "s" 30).2.1
      = [{ userW with login_attempts := 0, last_login := some 7 }] ∧
    (login_checked verifyW dbW [] 0 "9.9.9.9" "other@b.com" "Secret1!"
      "j2" "s" 30).2.1 = dbW ∧
    (login_checked verifyW [{ userW with is_deleted := true }] [] 0 "9.9.9.9"
      "a@b.com" "Secret1!" "j2" "s" 30).2.1
      = [{ userW with is_deleted := true }] ∧
    (login_checked verifyW [{ userW with is_active := false }] [] 0 "9.9.9.9"
      "a@b.com" "Secret1!" "j2" "s" 30).2.1
      = [{ userW with is_active := false }] := by decide

/-- Rows that are inactive or deleted are invisible to
`get_user_by_id`. -/
theorem get_user_by_id_eq_none (db : DB) (uid : Int)
    (h : ∀ u ∈ db, (u.id : Int) = uid → u.is_active = false ∨ u.is_deleted = true) :
    get_user_by_id db uid = none := by
  induction db with
  | nil => rfl
  | cons u rest ih =>
    have hu := h u (List.mem_cons_self u rest)
    simp only [get_user_by_id]
    rw [if_neg, ih]
    · intro v hv
      exact h v (List.mem_cons_of_mem u hv)
    · rintro ⟨hid, hact, hdel⟩
      rcases hu hid with h1 | h1
      · rw [hact] at h1; cases h1
      · rw [hdel] at h1; cases h1

/-- C10: a validly signed, unexpired, unblacklisted token still fails
authentication with 401 when every row carrying its subject id is
inactive or deleted, because `get_user_by_id` filters to active,
non-deleted rows; the token itself decodes fine. -/
theorem c10_inactive_or_deleted_rejected (db : DB) (r : Redis)
    (now e : Nat) (secret subStr j : String) (uid : Int) (t : TokenStr)
    (ht : t = .signed ⟨some subStr, some e, some j⟩ secret)
    (htok : rget r now (.blacklistTok t) = none)
    (hjti : rget r now (.blacklistJti j) = none)
    (hexp : now < e) (hj : ¬ j = "")
    (hsub : pyInt subStr = some uid)
    (hdb : ∀ u ∈ db, (u.id : Int) = uid →
      u.is_active = false ∨ u.is_deleted = true) :
    decode_access_token r now secret t
      = .ok ⟨some subStr, some e, some j⟩ ∧
    get_current_user db r now secret t
      = .error (.http 401 "Inactive or missing user.") := by
  subst ht
  have hdecode : decode_access_token r now secret
      (.signed ⟨some subStr, some e, some j⟩ secret)
      = .ok ⟨some subStr, some e, some j⟩ := by
    unfold decode_access_token jwt_decode
    rw [htok]
    simp [hexp]
  refine ⟨hdecode, ?_⟩
  simp only [get_current_user, get_token_jti, hdecode]
  simp [hj, hjti, hsub, get_user_by_id_eq_none db uid hdb]

/-- C10 (witness): the concrete deactivated-user table rejects `tW`
even though the token is valid, unexpired and unblacklisted. -/
theorem c10_inactive_or_deleted_rejected_witness :
    decode_access_token [] 0 "s" tW = .ok ⟨some "1", some 1800, some "j1"⟩ ∧
    get_current_user [{ userW with is_active := false }] [] 0 "s" tW
      = .error (.http 401 "Inactive or missing user.") :=
  c10_inactive_or_deleted_rejected [{ userW with is_active := false }] [] 0
    1800 "s" "1" "j1" 1 tW (by decide) (by decide) (by decide) (by decide)
    (by decide) (by decide) (by decide)

/-- Liveness of a store entry only decays with time. -/
theorem REntry.live_mono (ent : REntry) (now₀ now₁ : Nat) (hle : now₀ ≤ now₁)
    (h : ent.live now₁ = true) : ent.live now₀ = true := by
  unfold REntry.live at h ⊢
  cases hx : ent.expAt with
  | none => rfl
  | some tExp =>
    rw [hx] at h
    simp only [decide_eq_true_eq] at h ⊢
    omega

/-- A key that reads as absent keeps reading as absent at every later
time (entries only expire; reads do not resurrect them). -/
theorem rget_none_mono (r : Redis) (k : RKey) (now₀ now₁ : Nat)
    (hle : now₀ ≤ now₁) (h : rget r now₀ k = none) : rget r now₁ k = none := by
  unfold rget at h ⊢
  cases hl : rlookup r k with
  | none => rfl
  | some ent =>
    rw [hl] at h
    have h0 : (if ent.live now₀ = true then some ent.val else none) = none := h
    by_cases hlive : ent.live now₁ = true
    · exfalso
      rw [if_pos (REntry.live_mono ent now₀ now₁ hle hlive)] at h0
      cases h0
    · show (if ent.live now₁ = true then some ent.val else none) = none
      rw [if_neg hlive]

/-- Removing one key leaves lookups of any other key unchanged. -/
theorem rlookup_rremove_ne (r : Redis) (k' k : RKey) (h : ¬ k' = k) :
    rlookup (rremove r k') k = rlookup r k := by
  induction r with
  | nil => rfl
  | cons ent rest ih =>
    simp only [rremove]
    by_cases he : ent.key = k'
    · rw [if_pos he, ih]
      show rlookup rest k = if ent.key = k then some ent else rlookup rest k
      rw [if_neg (fun hk => h (he.symm.trans hk))]
    · rw [if_neg he]
      show (if ent.key = k then some ent else rlookup (rremove rest k') k)
        = if ent.key = k then some ent else rlookup rest k
      by_cases hk : ent.key = k
      · rw [if_pos hk, if_pos hk]
      · rw [if_neg hk, if_neg hk, ih]

/-- Removing one key leaves reads of any other key unchanged. -/
theorem rget_rremove_ne (r : Redis) (now : Nat) (k' k : RKey) (h : ¬ k' = k) :
    rget (rremove r k') now k = rget r now k := by
  unfold rget
  rw [rlookup_rremove_ne r k' k h]

/-- A fresh entry under one key leaves reads of any other key
unchanged. -/
theorem rget_cons_ne (ent : REntry) (rest : Redis) (now : Nat) (k : RKey)
    (h : ¬ ent.key = k) : rget (ent :: rest) now k = rget rest now k := by
  unfold rget
  have hl : rlookup (ent :: rest) k = rlookup rest k := by
    show (if ent.key = k then some ent else rlookup rest k) = rlookup rest k
    rw [if_neg h]
  rw [hl]

/-- A validly signed, unexpired token whose raw string is not
blacklisted decodes to its claim set. -/
theorem decode_valid_ok (r : Redis) (now e : Nat) (secret subStr j : String)
    (htok : rget r now
      (.blacklistTok (.signed ⟨some subStr, some e, some j⟩ secret)) = none)
    (hexp : now < e) :
    decode_access_token r now secret
        (.signed ⟨some subStr, some e, some j⟩ secret)
      = .ok ⟨some subStr, some e, some j⟩ := by
  unfold decode_access_token jwt_decode
  rw [htok]
  simp [hexp]

/-- Authentication succeeds for a validly signed, unexpired,
unblacklisted token whose subject resolves to an active, non-deleted
user. -/
theorem get_current_user_valid_ok (db : DB) (r : Redis) (now e : Nat)
    (secret subStr j : String) (uid : Int) (u : UserRec)
    (htok : rget r now
      (.blacklistTok (.signed ⟨some subStr, some e, some j⟩ secret)) = none)
    (hjti : rget r now (.blacklistJti j) = none)
    (hexp : now < e) (hj : ¬ j = "") (hsub : pyInt subStr = some uid)
    (huser : get_user_by_id db uid = some u) :
    get_current_user db r now secret
      (.signed ⟨some subStr, some e, some j⟩ secret) = .ok u := by
  have hdecode := decode_valid_ok r now e secret subStr j htok hexp
  simp only [get_current_user, get_token_jti, hdecode]
  simp [hj, hjti, hsub, huser]

/-- A successful logout on a valid token writes exactly the jti
blacklist entry with the token's remaining lifetime as TTL. -/
theorem logout_endpoint_valid_ok (db : DB) (r : Redis) (now e : Nat)
    (secret subStr j : String) (uid : Int) (u : UserRec)
    (htok : rget r now
      (.blacklistTok (.signed ⟨some subStr, some e, some j⟩ secret)) = none)
    (hjti : rget r now (.blacklistJti j) = none)
    (hexp : now < e) (hj : ¬ j = "") (hsub : pyInt subStr = some uid)
    (huser : get_user_by_id db uid = some u) :
    logout_endpoint true true db r now secret
        (.signed ⟨some subStr, some e, some j⟩ secret)
      = .ok (rsetex r now (.blacklistJti j)
          ((e : Int) - (now : Int)).toNat "true") := by
  have hauth := get_current_user_valid_ok db r now e secret subStr j uid u
    htok hjti hexp hj hsub huser
  have hdecode := decode_valid_ok r now e secret subStr j htok hexp
  have hjt : get_token_jti r now secret
      (.signed ⟨some subStr, some e, some j⟩ secret) = .ok j := by
    simp only [get_token_jti, hdecode]
    simp [hj]
  have he0 : ¬ e = 0 := by omega
  have httl : ¬ ((e : Int) - (now : Int) ≤ 0) := by omega
  simp only [logout_endpoint, hauth, logout_user, logout_try_block, hdecode,
    hjt]
  simp only [if_neg he0, if_neg httl, if_pos rfl]
  simp
/-- After logout's blacklist write, authentication with the same token
fails 401 at every later time: as revoked while the token is unexpired,
as invalid once it has expired. -/
theorem get_current_user_after_logout_401 (db : DB) (r : Redis)
    (now₀ now₁ e : Nat) (secret subStr j : String)
    (htok : rget r now₀
      (.blacklistTok (.signed ⟨some subStr, some e, some j⟩ secret)) = none)
    (hexp : now₀ < e) (hj : ¬ j = "") (hle : now₀ ≤ now₁) :
    get_current_user db
        (rsetex r now₀ (.blacklistJti j) ((e : Int) - (now₀ : Int)).toNat
          "true")
        now₁ secret (.signed ⟨some subStr, some e, some j⟩ secret)
      = .error (.http 401 (if now₁ < e then "Token has been revoked."
          else "Invalid authentication credentials.")) := by
  have htn : ((e : Int) - (now₀ : Int)).toNat = e - now₀ := by omega
  rw [htn]
  have hkeyne : ¬ (RKey.blacklistJti j
      = RKey.blacklistTok (.signed ⟨some subStr, some e, some j⟩ secret)) := by
    intro hk
    cases hk
  have htok2 : rget (rsetex r now₀ (.blacklistJti j) (e - now₀) "true")
      now₁ (.blacklistTok (.signed ⟨some subStr, some e, some j⟩ secret))
      = none := by
    unfold rsetex
    rw [rget_cons_ne _ _ _ _ hkeyne,
      rget_rremove_ne _ _ _ _ hkeyne,
      rget_none_mono r _ now₀ now₁ hle htok]
  by_cases hcase : now₁ < e
  · have hdecode := decode_valid_ok _ now₁ e secret subStr j htok2 hcase
    have hbl : rget (rsetex r now₀ (.blacklistJti j) (e - now₀) "true")
        now₁ (.blacklistJti j) = some "true" := by
      unfold rsetex rget
      have hl : rlookup
          (⟨.blacklistJti j, some (now₀ + (e - now₀)), "true"⟩
            :: rremove r (.blacklistJti j)) (.blacklistJti j)
          = some ⟨.blacklistJti j, some (now₀ + (e - now₀)), "true"⟩ := by
        simp [rlookup]
      rw [hl]
      have hlive : REntry.live
          ⟨.blacklistJti j, some (now₀ + (e - now₀)), "true"⟩ now₁ = true := by
        unfold REntry.live
        simp only [decide_eq_true_eq]
        omega
      show (if REntry.live
          ⟨.blacklistJti j, some (now₀ + (e - now₀)), "true"⟩ now₁ = true
        then some "true" else none) = some "true"
      rw [if_pos hlive]
    simp only [get_current_user, get_token_jti, hdecode]
    simp [hj, hbl, hcase]
  · have hdecode : decode_access_token
        (rsetex r now₀ (.blacklistJti j) (e - now₀) "true")
        now₁ secret (.signed ⟨some subStr, some e, some j⟩ secret)
        = .error (.http 401 "Invalid authentication credentials.") := by
      unfold decode_access_token jwt_decode
      rw [htok2]
      simp [hcase]
    simp only [get_current_user, get_token_jti, hdecode]
    simp [hcase]

/-- The post-logout `GET /auth/me` status observer reduces to the status
of `get_me` over the store the successful logout produced. -/
theorem me_after_logout_status_eq (db : DB) (r r2 : Redis)
    (now₀ now₁ : Nat) (secret : String) (t : TokenStr)
    (hlg : logout_endpoint true true db r now₀ secret t = .ok r2) :
    me_after_logout_status db r now₀ now₁ secret t
      = respStatus 200 (get_me db r2 now₁ secret t) := by
  unfold me_after_logout_status
  rw [hlg]

/-- The second-logout status observer reduces to the status of a new
logout over the store the first successful logout produced. -/
theorem second_logout_status_eq (db : DB) (r r2 : Redis)
    (now₀ now₁ : Nat) (secret : String) (t : TokenStr)
    (hlg : logout_endpoint true true db r now₀ secret t = .ok r2) :
    second_logout_status db r now₀ now₁ secret t
      = respStatus 204 (logout_endpoint true true db r2 now₁ secret t) := by
  unfold second_logout_status
  rw [hlg]

/-- C1: a freshly issued, validly signed, unexpired, unblacklisted
token authenticates `GET /auth/me`; `POST /auth/logout` with it
succeeds (204), writing its jti to the blacklist for the token's
remaining lifetime; and at every later time `GET /auth/me` with the
same token answers 401 — while the token is unexpired because its jti
is blacklisted, afterwards because it is expired. -/
theorem c1_me_rejected_after_logout (db : DB) (r : Redis)
    (now₀ now₁ e : Nat) (secret subStr j : String) (uid : Int) (u : UserRec)
    (t : TokenStr) (ht : t = .signed ⟨some subStr, some e, some j⟩ secret)
    (htok : rget r now₀ (.blacklistTok t) = none)
    (hjti : rget r now₀ (.blacklistJti j) = none)
    (hexp : now₀ < e) (hj : ¬ j = "") (hsub : pyInt subStr = some uid)
    (huser : get_user_by_id db uid = some u) (hle : now₀ ≤ now₁) :
    get_me db r now₀ secret t = .ok u ∧
    respStatus 204 (logout_endpoint true true db r now₀ secret t) = 204 ∧
    me_after_logout_status db r now₀ now₁ secret t = 401 := by
  subst ht
  have hauth := get_current_user_valid_ok db r now₀ e secret subStr j uid u
    htok hjti hexp hj hsub huser
  have hlogout := logout_endpoint_valid_ok db r now₀ e secret subStr j uid u
    htok hjti hexp hj hsub huser
  refine ⟨hauth, by rw [hlogout]; rfl, ?_⟩
  rw [me_after_logout_status_eq db r _ now₀ now₁ secret _ hlogout]
  unfold get_me
  rw [get_current_user_after_logout_401 db r now₀ now₁ e secret subStr j htok
    hexp hj hle]
  rfl

/-- C1 (witness): the concrete one-user scenario at times 0 and 5 with
the token issued for `userW`. -/
theorem c1_me_rejected_after_logout_witness :
    get_me dbW [] 0 "s" tW = .ok userW ∧
    respStatus 204 (logout_endpoint true true dbW [] 0 "s" tW) = 204 ∧
    me_after_logout_status dbW [] 0 5 "s" tW = 401 :=
  c1_me_rejected_after_logout dbW [] 0 5 1800 "s" "1" "j1" 1 userW tW
    (by decide) (by decide) (by decide) (by decide) (by decide) (by decide)
    (by decide) (by decide)

/-- C3 (counterexample): in the concrete one-user scenario the first
logout returns 204 but the second logout with the same token returns
401, not a no-op success — the authentication dependency rejects the
now-blacklisted token before the handler runs. -/
theorem c3_second_logout_not_204 :
    respStatus 204 (logout_endpoint true true dbW [] 0 "s" tW) = 204 ∧
    second_logout_status dbW [] 0 1 "s" tW = 401 ∧
    ¬ second_logout_status dbW [] 0 1 "s" tW = 204 := by decide

/-- C3 (amended): the first logout with a valid token succeeds (204);
every second logout with the same token at any later time is rejected
with 401 by the jti blacklist check in the authentication dependency,
rather than succeeding as a no-op; and the token never authenticates
`GET /auth/me` after the first logout. -/
theorem c3_second_logout_rejected (db : DB) (r : Redis)
    (now₀ now₁ e : Nat) (secret subStr j : String) (uid : Int) (u : UserRec)
    (t : TokenStr) (ht : t = .signed ⟨some subStr, some e, some j⟩ secret)
    (htok : rget r now₀ (.blacklistTok t) = none)
    (hjti : rget r now₀ (.blacklistJti j) = none)
    (hexp : now₀ < e) (hj : ¬ j = "") (hsub : pyInt subStr = some uid)
    (huser : get_user_by_id db uid = some u) (hle : now₀ ≤ now₁) :
    respStatus 204 (logout_endpoint true true db r now₀ secret t) = 204 ∧
    second_logout_status db r now₀ now₁ secret t = 401 ∧
    me_after_logout_status db r now₀ now₁ secret t = 401 := by
  subst ht
  have hlogout := logout_endpoint_valid_ok db r now₀ e secret subStr j uid u
    htok hjti hexp hj hsub huser
  refine ⟨by rw [hlogout]; rfl, ?_, ?_⟩
  · rw [second_logout_status_eq db r _ now₀ now₁ secret _ hlogout]
    unfold logout_endpoint
    rw [get_current_user_after_logout_401 db r now₀ now₁ e secret subStr j
      htok hexp hj hle]
    rfl
  · rw [me_after_logout_status_eq db r _ now₀ now₁ secret _ hlogout]
    unfold get_me
    rw [get_current_user_after_logout_401 db r now₀ now₁ e secret subStr j
      htok hexp hj hle]
    rfl

/-- C3 (witness for the amended theorem): the concrete one-user
scenario at times 0 and 1. -/
theorem c3_second_logout_rejected_witness :
    respStatus 204 (logout_endpoint true true dbW [] 0 "s" tW) = 204 ∧
    second_logout_status dbW [] 0 1 "s" tW = 401 ∧
    me_after_logout_status dbW [] 0 1 "s" tW = 401 :=
  c3_second_logout_rejected dbW [] 0 1 1800 "s" "1" "j1" 1 userW tW
    (by decide) (by decide) (by decide) (by decide) (by decide) (by decide)
    (by decide) (by decide)
